import Mathlib

/-!
Verification development for the MonoDB write-ahead log engine
(src/src/core/storage/wal.c, public interface in
src/include/monodb/core/storage/wal.h).

The C code is shallowly embedded: machine integers become Nat with
explicit `% 4294967296` where 32-bit wrap-around can occur, byte buffers
and segment files become lists of byte values (Nat, each < 256), and the
file system visible to the engine becomes explicit data carried in the
context.  Fallible operations return Option.  Writes are modelled as
appends at the end of the bytes written so far, which matches the C code
because the segment file descriptor is only ever written sequentially.
-/

/-! ## CRC-32 (init_crc32_table / calculate_crc32 in wal.c) -/

/-- One iteration of the inner loop of init_crc32_table (wal.c):
`c = (c & 1) ? (0xEDB88320 ^ (c >> 1)) : (c >> 1)`. -/
def tableStep (c : Nat) : Nat :=
  if c &&& 1 = 1 then 0xEDB88320 ^^^ (c >>> 1) else c >>> 1

/-- Entry `i` of the lookup table built by init_crc32_table (wal.c):
eight iterations of the inner loop starting from `i`. -/
def crc32_table (i : Nat) : Nat := tableStep^[8] i

/-- calculate_crc32 (wal.c): table-driven CRC-32 over a byte list,
initial value 0xFFFFFFFF, final complement (on uint32, `~crc` is
`crc ^^^ 0xFFFFFFFF`). -/
def calculate_crc32 (data : List Nat) : Nat :=
  (data.foldl (fun crc b => (crc >>> 8) ^^^ crc32_table ((crc ^^^ b) &&& 0xFF))
    0xFFFFFFFF) ^^^ 0xFFFFFFFF

/-- Modelled from the spec: one bit-step of the standard reflected CRC-32
with polynomial 0xEDB88320 (shift right, conditionally xor the
polynomial). -/
def crcRefStep (c : Nat) : Nat :=
  if c &&& 1 = 1 then (c >>> 1) ^^^ 0xEDB88320 else c >>> 1

/-- Modelled from the spec: the reference CRC-32 byte step; xor the byte
into the accumulator, then perform eight bit-steps. -/
def crcRefByte (c b : Nat) : Nat := crcRefStep^[8] (c ^^^ b)

/-- Modelled from the spec: the standard bitwise (reference) reflected
CRC-32, polynomial 0xEDB88320, initial value 0xFFFFFFFF, final xor
0xFFFFFFFF. -/
def crc32_reference (data : List Nat) : Nat :=
  (data.foldl crcRefByte 0xFFFFFFFF) ^^^ 0xFFFFFFFF

theorem crcRefStep_eq_xor (c : Nat) :
    crcRefStep c = (c >>> 1) ^^^ (if c &&& 1 = 1 then 0xEDB88320 else 0) := by
  unfold crcRefStep
  by_cases h : c &&& 1 = 1
  · rw [if_pos h, if_pos h, Nat.xor_comm]
  · rw [if_neg h, if_neg h, Nat.xor_zero]

theorem tableStep_eq_crcRefStep : tableStep = crcRefStep := by
  funext c
  unfold tableStep crcRefStep
  by_cases h : c &&& 1 = 1 <;> simp [h, Nat.xor_comm]

theorem shiftRight_xor_distrib (a b k : Nat) :
    (a ^^^ b) >>> k = (a >>> k) ^^^ (b >>> k) := by
  apply Nat.eq_of_testBit_eq
  intro i
  simp [Nat.testBit_shiftRight, Nat.testBit_xor]

theorem xor_and_one (a b : Nat) : (a ^^^ b) &&& 1 = (a &&& 1) ^^^ (b &&& 1) := by
  apply Nat.eq_of_testBit_eq
  intro i
  simp only [Nat.testBit_and, Nat.testBit_xor]
  cases h : Nat.testBit 1 i <;> simp [h]

theorem nat_xor_left_comm (a b c : Nat) : a ^^^ (b ^^^ c) = b ^^^ (a ^^^ c) := by
  rw [← Nat.xor_assoc, Nat.xor_comm a b, Nat.xor_assoc]

theorem crcRefStep_xor (a b : Nat) :
    crcRefStep (a ^^^ b) = crcRefStep a ^^^ crcRefStep b := by
  rw [crcRefStep_eq_xor, crcRefStep_eq_xor, crcRefStep_eq_xor,
    shiftRight_xor_distrib, xor_and_one]
  have ha : a &&& 1 = 0 ∨ a &&& 1 = 1 := by rw [Nat.and_one_is_mod]; omega
  have hb : b &&& 1 = 0 ∨ b &&& 1 = 1 := by rw [Nat.and_one_is_mod]; omega
  rcases ha with ha | ha <;> rcases hb with hb | hb <;>
    simp [ha, hb, Nat.xor_assoc, Nat.xor_comm, nat_xor_left_comm]

theorem crcRefStep_iterate_xor (k a b : Nat) :
    crcRefStep^[k] (a ^^^ b) = crcRefStep^[k] a ^^^ crcRefStep^[k] b := by
  induction k generalizing a b with
  | zero => simp
  | succ n ih =>
    rw [Function.iterate_succ_apply, Function.iterate_succ_apply,
      Function.iterate_succ_apply, crcRefStep_xor, ih]

theorem crcRefStep_iterate_shiftLeft (k hi : Nat) :
    crcRefStep^[k] (hi <<< k) = hi := by
  induction k with
  | zero => simp
  | succ n ih =>
    rw [Function.iterate_succ_apply]
    have he : (hi <<< (n + 1)) &&& 1 = 0 := by
      rw [Nat.and_one_is_mod, Nat.shiftLeft_eq, pow_succ, ← Nat.mul_assoc]
      exact Nat.mul_mod_left _ 2
    have hs : (hi <<< (n + 1)) >>> 1 = hi <<< n := by
      rw [Nat.shiftLeft_eq, Nat.shiftLeft_eq, Nat.shiftRight_eq_div_pow,
        pow_succ, ← Nat.mul_assoc, pow_one]
      exact Nat.mul_div_cancel _ (by omega)
    have h1 : crcRefStep (hi <<< (n + 1)) = hi <<< n := by
      unfold crcRefStep
      rw [he]
      simp [hs]
    rw [h1, ih]

theorem xor_and_255 (x : Nat) : x ^^^ (x &&& 255) = (x >>> 8) <<< 8 := by
  apply Nat.eq_of_testBit_eq
  intro i
  have h255 : Nat.testBit 255 i = decide (i < 8) := by
    have h := Nat.testBit_two_pow_sub_one 8 i
    norm_num at h
    exact h
  simp only [Nat.testBit_xor, Nat.testBit_and, Nat.testBit_shiftLeft,
    Nat.testBit_shiftRight, h255]
  by_cases h : i < 8
  · have h8 : ¬ (8 : Nat) ≤ i := by omega
    simp [h, h8]
  · have h8 : (8 : Nat) ≤ i := by omega
    have hi : 8 + (i - 8) = i := by omega
    simp [h, h8, hi]

theorem nat_xor_cancel_right (a b : Nat) : (a ^^^ b) ^^^ b = a := by
  rw [Nat.xor_assoc, Nat.xor_self, Nat.xor_zero]

theorem crcRefStep_iterate_table (x : Nat) :
    crcRefStep^[8] x = (x >>> 8) ^^^ crc32_table (x &&& 255) := by
  have h1 : (x ^^^ (x &&& 255)) ^^^ (x &&& 255) = x := nat_xor_cancel_right _ _
  calc crcRefStep^[8] x
      = crcRefStep^[8] ((x ^^^ (x &&& 255)) ^^^ (x &&& 255)) := by rw [h1]
    _ = crcRefStep^[8] (x ^^^ (x &&& 255)) ^^^ crcRefStep^[8] (x &&& 255) :=
        crcRefStep_iterate_xor 8 _ _
    _ = crcRefStep^[8] ((x >>> 8) <<< 8) ^^^ crcRefStep^[8] (x &&& 255) := by
        rw [xor_and_255]
    _ = (x >>> 8) ^^^ crcRefStep^[8] (x &&& 255) := by
        rw [crcRefStep_iterate_shiftLeft]
    _ = (x >>> 8) ^^^ crc32_table (x &&& 255) := by
        rw [crc32_table, tableStep_eq_crcRefStep]

theorem table_byte_step (c b : Nat) (hb : b < 256) :
    (c >>> 8) ^^^ crc32_table ((c ^^^ b) &&& 255) = crcRefByte c b := by
  unfold crcRefByte
  rw [crcRefStep_iterate_table (c ^^^ b), shiftRight_xor_distrib]
  have hb8 : b >>> 8 = 0 := by
    rw [Nat.shiftRight_eq_div_pow]
    exact Nat.div_eq_of_lt (by norm_num; omega)
  rw [hb8, Nat.xor_zero]

theorem crc_foldl_eq (l : List Nat) (hb : ∀ b ∈ l, b < 256) (c : Nat) :
    l.foldl (fun crc b => (crc >>> 8) ^^^ crc32_table ((crc ^^^ b) &&& 0xFF)) c
      = l.foldl crcRefByte c := by
  induction l generalizing c with
  | nil => rfl
  | cons x t ih =>
    have hx : x < 256 := hb x (by simp)
    have ht : ∀ b ∈ t, b < 256 := fun b hbm => hb b (by simp [hbm])
    simp only [List.foldl_cons]
    rw [show ((c >>> 8) ^^^ crc32_table ((c ^^^ x) &&& 0xFF)) = crcRefByte c x from
      table_byte_step c x hx, ih ht]

/-- C7: calculate_crc32 computes, for every byte sequence, the reflected
CRC-32 with polynomial 0xEDB88320, initial value 0xFFFFFFFF and final
xor 0xFFFFFFFF, i.e. it agrees with the standard bitwise reference
definition on all byte inputs. -/
theorem calculate_crc32_eq_reference (data : List Nat)
    (hb : ∀ b ∈ data, b < 256) :
    calculate_crc32 data = crc32_reference data := by
  unfold calculate_crc32 crc32_reference
  rw [crc_foldl_eq data hb]

/-- Witness for C7 at a concrete byte list. -/
theorem calculate_crc32_eq_reference_witness :
    (∀ b ∈ [84, 69, 76, 76, 255, 0], b < 256) ∧
      calculate_crc32 [84, 69, 76, 76, 255, 0] =
        crc32_reference [84, 69, 76, 76, 255, 0] :=
  ⟨by decide, calculate_crc32_eq_reference [84, 69, 76, 76, 255, 0] (by decide)⟩

/-! ## Data model (wal.h) -/

/-- wal_location_t: (segment, offset) pair, sentinel (0, 0). -/
structure WalLocation where
  segment : Nat
  offset : Nat
deriving DecidableEq

/-- wal_record_type_t with its stable numeric values. -/
inductive WalRecordType
  | null
  | checkpoint
  | xactCommit
  | xactAbort
  | insert
  | update
  | delete
  | newPage
  | schema
deriving DecidableEq

/-- The numeric on-disk value of a record type. -/
def WalRecordType.val : WalRecordType → Nat
  | .null => 0
  | .checkpoint => 1
  | .xactCommit => 2
  | .xactAbort => 3
  | .insert => 4
  | .update => 5
  | .delete => 6
  | .newPage => 7
  | .schema => 8

/-- wal_record_header_t: the in-memory header fields.  On disk the type
field is a 32-bit value, so it is kept here as a Nat (read-back can
produce any value). -/
structure RecordHeaderData where
  total_len : Nat
  rtype : Nat
  xid : Nat
  prev_record : WalLocation
  data_len : Nat
deriving DecidableEq

/-- wal_segment_state_t. -/
inductive WalSegmentState
  | empty
  | active
  | full
  | archived
deriving DecidableEq

/-! ## Byte-level serialization of records

The header struct is 24 bytes, native little-endian:
total_len u32 | type u32 | xid u32 | prev_segment u32 | prev_offset u32 |
data_len u16 | 2 padding bytes.  A full record is
header || payload[data_len] || crc u32. -/

/-- Little-endian bytes of the low 32 bits of a value (what storing to a
uint32 field puts in memory). -/
def le32 (n : Nat) : List Nat :=
  [n % 256, n / 256 % 256, n / 65536 % 256, n / 16777216 % 256]

/-- Little-endian bytes of the low 16 bits of a value. -/
def le16 (n : Nat) : List Nat := [n % 256, n / 256 % 256]

/-- The 24 header bytes of a record (2 trailing alignment padding bytes,
modelled as zero). -/
def headerBytes (h : RecordHeaderData) : List Nat :=
  le32 h.total_len ++ le32 h.rtype ++ le32 h.xid ++
    le32 h.prev_record.segment ++ le32 h.prev_record.offset ++
    le16 h.data_len ++ [0, 0]

/-- The full on-disk bytes of a record: header, payload, then the CRC-32
of header || payload, as appended by wal_end_record. -/
def recordBytes (h : RecordHeaderData) (p : List Nat) : List Nat :=
  headerBytes h ++ p ++ le32 (calculate_crc32 (headerBytes h ++ p))

/-- Byte at index i of a file (reads of preallocated-but-unwritten bytes
yield 0; out-of-range access is only ever guarded by length checks). -/
def byteAt (f : List Nat) (i : Nat) : Nat := f.getD i 0

/-- Load a little-endian u32 from a file at a byte position. -/
def readLE32 (f : List Nat) (pos : Nat) : Nat :=
  byteAt f pos + 256 * byteAt f (pos + 1) + 65536 * byteAt f (pos + 2) +
    16777216 * byteAt f (pos + 3)

/-- Load a little-endian u16 from a file at a byte position. -/
def readLE16 (f : List Nat) (pos : Nat) : Nat :=
  byteAt f pos + 256 * byteAt f (pos + 1)

/-- Reading sizeof(wal_record_header_t) bytes at a position into a
header struct. -/
def parseHeader (f : List Nat) (pos : Nat) : RecordHeaderData :=
  { total_len := readLE32 f pos
    rtype := readLE32 f (pos + 4)
    xid := readLE32 f (pos + 8)
    prev_record := ⟨readLE32 f (pos + 12), readLE32 f (pos + 16)⟩
    data_len := readLE16 f (pos + 20) }

/-! ## Segment manager and context (wal.c) -/

/-- The three filename fields produced by create_new_segment (wal.c:126):
snprintf("%08X%08X%08X", n / 0xFFFFFFFF, (n / 0xFFFF) & 0xFFFF,
n & 0xFFFF). -/
def createSegmentFields (n : Nat) : Nat × Nat × Nat :=
  (n / 0xFFFFFFFF, (n / 0xFFFF) % 65536, n % 65536)

/-- The three filename fields derived by wal_read_record (wal.c:488) for
the segment it must open; same snprintf format string. -/
def readRecordFields (n : Nat) : Nat × Nat × Nat :=
  (n / 0xFFFFFFFF, (n / 0xFFFF) % 65536, n % 65536)

/-- The three filename fields derived by scan_records_for_recovery
(wal.c:713) for the next segment to process. -/
def scanRecoveryFields (n : Nat) : Nat × Nat × Nat :=
  (n / 0xFFFFFFFF, (n / 0xFFFF) % 65536, n % 65536)

/-- Modelled from the spec: the derivation the spec states for the
filename fields (n / 2^32, (n / 2^16) & 0xFFFF, n & 0xFFFF). -/
def specSegmentFields (n : Nat) : Nat × Nat × Nat :=
  (n / 4294967296, (n / 65536) % 65536, n % 65536)

/-- wal_segment_t.  `data` is the sequence of bytes written to the file
so far (the file is preallocated to segment_size bytes; unwritten bytes
read as zero).  `filename` is the parsed triple of hex fields of the
file's name. -/
structure WalSegment where
  segment_num : Nat
  filename : Nat × Nat × Nat
  state : WalSegmentState
  current_offset : Nat
  data : List Nat
deriving DecidableEq

/-- The current in-flight record buffer (header fields plus the loaned
payload slot). -/
structure PendingRecord where
  header : RecordHeaderData
  payload : List Nat
deriving DecidableEq

/-- wal_context_t.  `closed_segments` holds the segment files that were
rolled over (they remain on disk); `inited` is the C field named
initialized. -/
structure WalContext where
  segment_size : Nat
  current_segment : WalSegment
  closed_segments : List WalSegment
  last_write_location : WalLocation
  current_record : Option PendingRecord
  current_record_size : Nat
  next_segment_num : Nat
  inited : Bool
deriving DecidableEq

/-- create_new_segment (wal.c): allocate the file for segment number
next_segment_num (post-incrementing it, uint32), preallocate, state
Empty then Active. -/
def create_new_segment (ctx : WalContext) : WalContext :=
  { ctx with
    current_segment :=
      { segment_num := ctx.next_segment_num
        filename := createSegmentFields ctx.next_segment_num
        state := WalSegmentState.active
        current_offset := 0
        data := [] }
    next_segment_num := (ctx.next_segment_num + 1) % 4294967296 }

/-- wal_init (wal.c): default segment_size 16 MiB when 0 is supplied,
next_segment_num starts at 1, last_write_location is the (0,0) sentinel
(memset), then the first segment is created.  The placeholder current
segment mirrors the NULL pointer before creation. -/
def wal_init (segment_size : Nat) : WalContext :=
  let ss := if segment_size > 0 then segment_size else 16777216
  let ctx0 : WalContext :=
    { segment_size := ss
      current_segment :=
        { segment_num := 0, filename := (0, 0, 0),
          state := WalSegmentState.empty, current_offset := 0, data := [] }
      closed_segments := []
      last_write_location := ⟨0, 0⟩
      current_record := none
      current_record_size := 0
      next_segment_num := 1
      inited := false }
  { create_new_segment ctx0 with inited := true }

/-- wal_begin_record (wal.c): discards any previous in-flight buffer,
allocates total_len = sizeof(header) + data_len + 4 bytes, fills the
header (prev_record links to last_write_location) and loans the payload
slot to the caller.  Allocation is modelled as always succeeding. -/
def wal_begin_record (ctx : WalContext) (t : WalRecordType) (xid : Nat)
    (data_len : Nat) : Option WalContext :=
  if ctx.inited = true then
    let total_size := (24 + data_len + 4) % 4294967296
    some { ctx with
      current_record := some
        { header :=
            { total_len := total_size
              rtype := t.val
              xid := xid
              prev_record := ctx.last_write_location
              data_len := data_len }
          payload := List.replicate data_len 0 }
      current_record_size := total_size }
  else none

/-- Models the caller writing `p` into the loaned payload slot returned
by wal_begin_record (exactly data_len bytes are writable). -/
def wal_write_payload (ctx : WalContext) (p : List Nat) : WalContext :=
  match ctx.current_record with
  | some pr =>
      let pr2 : PendingRecord := { pr with payload := p.takeD pr.header.data_len 0 }
      { ctx with current_record := some pr2 }
  | none => ctx

/-- wal_end_record (wal.c): roll over when the record does not fit
(uint32 arithmetic), append the CRC, write the whole buffer with one
write call (the oracle `written` is the byte count the write reported;
the C code compares it against current_record_size), and only on a full
write advance current_offset, set last_write_location and release the
buffer.  On a short write the buffer is left in place and the partial
bytes stay in the file. -/
def wal_end_record (ctx : WalContext) (written : Nat) :
    WalContext × Option WalLocation :=
  if ctx.inited = true then
    match ctx.current_record with
    | none => (ctx, none)
    | some pr =>
      let ctx1 :=
        if (ctx.current_segment.current_offset + ctx.current_record_size) %
            4294967296 > ctx.segment_size then
          create_new_segment
            { ctx with closed_segments :=
                { ctx.current_segment with state := WalSegmentState.full } ::
                  ctx.closed_segments }
        else ctx
      let bytes := recordBytes pr.header pr.payload
      if written = ctx.current_record_size then
        let loc : WalLocation :=
          ⟨ctx1.current_segment.segment_num, ctx1.current_segment.current_offset⟩
        ({ ctx1 with
            current_segment := { ctx1.current_segment with
              data := ctx1.current_segment.data ++ bytes
              current_offset := (ctx1.current_segment.current_offset +
                ctx.current_record_size) % 4294967296 }
            last_write_location := loc
            current_record := none
            current_record_size := 0 }, some loc)
      else
        ({ ctx1 with
            current_segment := { ctx1.current_segment with
              data := ctx1.current_segment.data ++ bytes.take written } },
          none)
  else (ctx, none)

/-- The whole two-phase append for a record that the file system accepts
in full: BeginRecord, write the payload into the slot, EndRecord with a
complete write. -/
def beginWriteEnd (ctx : WalContext) (t : WalRecordType) (xid : Nat)
    (p : List Nat) : WalContext × Option WalLocation :=
  match wal_begin_record ctx t xid p.length with
  | none => (ctx, none)
  | some c1 =>
    let c2 := wal_write_payload c1 p
    wal_end_record c2 c2.current_record_size

/-- The observable bytes of a segment file: written prefix, then the
zero bytes ftruncate preallocated. -/
def fileBytes (seg : WalSegment) (segment_size : Nat) : List Nat :=
  seg.data ++ List.replicate (segment_size - seg.data.length) 0

/-- wal_read_record's file access: reuse the active segment's descriptor
when the segment number matches, otherwise open the file whose name
wal_read_record derives from the segment number. -/
def lookup_segment_file (ctx : WalContext) (n : Nat) : Option (List Nat) :=
  if ctx.current_segment.segment_num = n then
    some (fileBytes ctx.current_segment ctx.segment_size)
  else
    match ctx.closed_segments.find?
        (fun s => decide (s.filename = readRecordFields n)) with
    | some s => some (fileBytes s ctx.segment_size)
    | none => none

/-- The body of wal_read_record once the file is at hand: seek to the
offset, read the header, validate total_len, read min(data_len,
data_buf_size) payload bytes into the caller's buffer (or skip the
payload when no buffer was supplied), then read 4 bytes of CRC -- whose
value is not checked.  A read that gets fewer bytes than requested
fails. -/
def read_record_from_file (ssize : Nat) (f : List Nat) (off : Nat)
    (data_buf_size : Nat) : Option (RecordHeaderData × List Nat) :=
  if off + 24 ≤ f.length then
    let hdr := parseHeader f off
    if 28 ≤ hdr.total_len ∧ hdr.total_len ≤ ssize then
      if data_buf_size > 0 then
        let btr := min hdr.data_len data_buf_size
        if off + 24 + btr ≤ f.length then
          if off + 24 + btr + 4 ≤ f.length then
            some (hdr, (f.drop (off + 24)).take btr)
          else none
        else none
      else
        if off + 24 + hdr.data_len + 4 ≤ f.length then some (hdr, [])
        else none
    else none
  else none

/-- wal_read_record (wal.c). -/
def wal_read_record (ctx : WalContext) (loc : WalLocation)
    (data_buf_size : Nat) : Option (RecordHeaderData × List Nat) :=
  if ctx.inited = true then
    match lookup_segment_file ctx loc.segment with
    | some f => read_record_from_file ctx.segment_size f loc.offset data_buf_size
    | none => none
  else none

/-! ## Recovery engine (wal.c) -/

/-- transaction_state_t. -/
inductive TxnState
  | inProgress
  | committed
  | aborted
deriving DecidableEq

/-- transaction_info_t. -/
structure TxnInfo where
  xid : Nat
  state : TxnState
  first_record : WalLocation
  last_record : WalLocation
deriving DecidableEq

/-- find_transaction (wal.c): linear search by XID. -/
def find_transaction (map : List TxnInfo) (xid : Nat) : Option TxnInfo :=
  map.find? (fun t => t.xid == xid)

/-- add_transaction (wal.c): append a fresh InProgress entry. -/
def add_transaction (map : List TxnInfo) (xid : Nat) (loc : WalLocation) :
    List TxnInfo :=
  map ++ [{ xid := xid, state := TxnState.inProgress,
            first_record := loc, last_record := loc }]

/-- In-place mutation of the found map entry, as the C code does through
the pointer returned by find_transaction (XIDs in the map are unique). -/
def update_transaction (map : List TxnInfo) (xid : Nat)
    (f : TxnInfo → TxnInfo) : List TxnInfo :=
  map.map (fun t => if t.xid == xid then f t else t)

/-- wal_recovery_stats_t (recovery_time_ms, a wall-clock measurement, is
not part of the functional model). -/
structure RecoveryStats where
  processed_segments : Nat
  processed_records : Nat
  applied_records : Nat
  skipped_records : Nat
  committed_transactions : Nat
  aborted_transactions : Nat
  incomplete_transactions : Nat
  bytes_processed : Nat
deriving DecidableEq

/-- The observable scan state: the statistics plus the list of records
actually handed to a record handler (each handler call appends its
header/payload arguments). -/
structure ScanState where
  stats : RecoveryStats
  dispatched : List (RecordHeaderData × List Nat)
deriving DecidableEq

/-- The zeroed recovery context wal_recover starts from. -/
def ScanState.start : ScanState :=
  { stats :=
      { processed_segments := 0, processed_records := 0, applied_records := 0,
        skipped_records := 0, committed_transactions := 0,
        aborted_transactions := 0, incomplete_transactions := 0,
        bytes_processed := 0 }
    dispatched := [] }

/-- apply_recovery_record (wal.c): count the record, skip WAL control
records (Null, Checkpoint, XactCommit, XactAbort), and for other types
call the registered handler when one exists (type ≤ 8 and the table
entry is non-NULL).  `handlers` is the presence map of the handler
table; the handlers wal_recover registers always succeed, so a
dispatched record yields true and is appended to `dispatched`. -/
def apply_recovery_record (handlers : Nat → Bool) (hdr : RecordHeaderData)
    (data : List Nat) (st : ScanState) : Bool × ScanState :=
  let st1 := { st with stats := { st.stats with
    processed_records := st.stats.processed_records + 1
    bytes_processed := st.stats.bytes_processed + hdr.total_len } }
  if hdr.rtype = 0 ∨ hdr.rtype = 1 ∨ hdr.rtype = 2 ∨ hdr.rtype = 3 then
    (true, st1)
  else if hdr.rtype ≤ 8 ∧ handlers hdr.rtype = true then
    (true, { st1 with
      stats := { st1.stats with
        applied_records := st1.stats.applied_records + 1 }
      dispatched := st1.dispatched ++ [(hdr, data)] })
  else
    (true, st1)

/-- The per-segment loop of scan_records_for_recovery (wal.c): read a
header (end-of-file ends the segment cleanly), validate total_len
(zero or out-of-range ends the segment), read the payload (a short
payload read aborts the whole scan), skip the 4 CRC bytes unchecked,
update the transaction map, then invoke the callback iff the record is
a control record or its transaction is, at this point of the scan,
already Committed; otherwise count it skipped.  `fuel` bounds the
iterations; every caller passes more fuel than a segment can hold
records (each record occupies at least 28 bytes), so the bound is never
the reason the loop stops. -/
def scan_segment_records (ssize : Nat) (handlers : Nat → Bool)
    (f : List Nat) (segNum : Nat) :
    Nat → Nat → List TxnInfo → ScanState →
      List TxnInfo × ScanState × Bool
  | 0, _, map, st => (map, st, true)
  | fuel + 1, pos, map, st =>
    if pos + 24 ≤ f.length then
      let hdr := parseHeader f pos
      if 28 ≤ hdr.total_len ∧ hdr.total_len ≤ ssize then
        if pos + 24 + hdr.data_len ≤ f.length then
          let data := (f.drop (pos + 24)).take hdr.data_len
          let map_a :=
            if hdr.xid > 0 ∧ find_transaction map hdr.xid = none then
              add_transaction map hdr.xid ⟨segNum, pos⟩
            else map
          let mapSt :=
            if hdr.xid > 0 then
              if hdr.rtype = 2 then
                (update_transaction map_a hdr.xid
                    (fun t => { t with state := TxnState.committed }),
                  { st with stats := { st.stats with
                      committed_transactions :=
                        st.stats.committed_transactions + 1 } })
              else if hdr.rtype = 3 then
                (update_transaction map_a hdr.xid
                    (fun t => { t with state := TxnState.aborted }),
                  { st with stats := { st.stats with
                      aborted_transactions :=
                        st.stats.aborted_transactions + 1 } })
              else
                (update_transaction map_a hdr.xid
                    (fun t => { t with last_record := ⟨segNum, pos⟩ }), st)
            else (map_a, st)
          let map1 := mapSt.1
          let st1 := mapSt.2
          let is_control := hdr.rtype = 1 ∨ hdr.rtype = 2 ∨ hdr.rtype = 3
          let txn2 := if hdr.xid > 0 then find_transaction map1 hdr.xid else none
          let commit_ok : Bool :=
            match txn2 with
            | some t => decide (t.state = TxnState.committed)
            | none => false
          if is_control ∨ commit_ok = true then
            match apply_recovery_record handlers hdr data st1 with
            | (ok, st2) =>
              if ok then
                scan_segment_records ssize handlers f segNum fuel
                  (pos + hdr.total_len) map1
                  { st2 with stats := { st2.stats with
                      processed_records := st2.stats.processed_records + 1
                      bytes_processed :=
                        st2.stats.bytes_processed + hdr.total_len } }
              else (map1, st2, false)
          else
            scan_segment_records ssize handlers f segNum fuel
              (pos + hdr.total_len) map1
              { st1 with stats := { st1.stats with
                  skipped_records := st1.stats.skipped_records + 1
                  processed_records := st1.stats.processed_records + 1
                  bytes_processed :=
                    st1.stats.bytes_processed + hdr.total_len } }
        else (map, st, false)
      else (map, st, true)
    else (map, st, true)

/-- scan_records_for_recovery (wal.c) over the segment files present on
disk: `files` are the contents of the segment files numbered segNum,
segNum + 1, ... in order; the loop ends cleanly at the first missing
file (end of list).  After the loop, transactions still InProgress are
counted as incomplete.  An error inside a segment aborts the whole scan
(returns false) without that final counting. -/
def scan_records_for_recovery (ssize : Nat) (handlers : Nat → Bool) :
    List (List Nat) → Nat → Nat → List TxnInfo → ScanState →
      List TxnInfo × ScanState × Bool
  | [], _, _, map, st =>
    (map,
      { st with stats := { st.stats with incomplete_transactions :=
          st.stats.incomplete_transactions +
            (map.filter (fun t => decide (t.state = TxnState.inProgress))).length } },
      true)
  | f :: rest, segNum, pos, map, st =>
    let st1 := { st with stats := { st.stats with
      processed_segments := st.stats.processed_segments + 1 } }
    match scan_segment_records ssize handlers f segNum (f.length + 1) pos map st1 with
    | (map1, st2, true) =>
        scan_records_for_recovery ssize handlers rest (segNum + 1) 0 map1 st2
    | (map1, st2, false) => (map1, st2, false)

/-- The handler table wal_recover installs: handlers are present for
Insert (4), Update (5), Delete (6), NewPage (7) and Schema (8). -/
def default_handlers (t : Nat) : Bool :=
  t == 4 || t == 5 || t == 6 || t == 7 || t == 8

/-! ## Round-trip lemmas for the on-disk encoding -/

theorem takeD_self (l : List Nat) (d : Nat) : l.takeD l.length d = l := by
  rw [List.takeD_eq_take d (Nat.le_refl _), List.take_length]

theorem byteAt_append (pre l : List Nat) (i : Nat) :
    byteAt (pre ++ l) (pre.length + i) = byteAt l i := by
  unfold byteAt
  rw [List.getD_eq_getElem?_getD, List.getD_eq_getElem?_getD,
    List.getElem?_append_right (Nat.le_add_right _ _)]
  simp

theorem headerBytes_length (h : RecordHeaderData) : (headerBytes h).length = 24 := by
  simp [headerBytes, le32, le16]

theorem le32_length (n : Nat) : (le32 n).length = 4 := by simp [le32]

theorem recordBytes_length (h : RecordHeaderData) (p : List Nat) :
    (recordBytes h p).length = 24 + p.length + 4 := by
  simp [recordBytes, headerBytes_length, le32]
  omega

theorem readLE32_le32 (pre post : List Nat) (n : Nat) (h : n < 4294967296) :
    readLE32 (pre ++ (le32 n ++ post)) pre.length = n := by
  have e0 : byteAt (pre ++ (le32 n ++ post)) (pre.length + 0) = n % 256 := by
    rw [byteAt_append]; simp [byteAt, le32]
  have e1 : byteAt (pre ++ (le32 n ++ post)) (pre.length + 1) = n / 256 % 256 := by
    rw [byteAt_append]; simp [byteAt, le32]
  have e2 : byteAt (pre ++ (le32 n ++ post)) (pre.length + 2) = n / 65536 % 256 := by
    rw [byteAt_append]; simp [byteAt, le32]
  have e3 : byteAt (pre ++ (le32 n ++ post)) (pre.length + 3) = n / 16777216 % 256 := by
    rw [byteAt_append]; simp [byteAt, le32]
  unfold readLE32
  rw [show pre.length = pre.length + 0 from rfl] at e0
  rw [e1, e2, e3]
  rw [show pre.length + 0 = pre.length from rfl] at e0
  rw [e0]
  omega

theorem readLE16_le16 (pre post : List Nat) (n : Nat) (h : n < 65536) :
    readLE16 (pre ++ (le16 n ++ post)) pre.length = n := by
  have e0 : byteAt (pre ++ (le16 n ++ post)) (pre.length + 0) = n % 256 := by
    rw [byteAt_append]; simp [byteAt, le16]
  have e1 : byteAt (pre ++ (le16 n ++ post)) (pre.length + 1) = n / 256 % 256 := by
    rw [byteAt_append]; simp [byteAt, le16]
  unfold readLE16
  rw [e1]
  rw [show pre.length + 0 = pre.length from rfl] at e0
  rw [e0]
  omega

theorem parseHeader_headerBytes (pre post : List Nat) (h : RecordHeaderData)
    (hb1 : h.total_len < 4294967296) (hb2 : h.rtype < 4294967296)
    (hb3 : h.xid < 4294967296) (hb4 : h.prev_record.segment < 4294967296)
    (hb5 : h.prev_record.offset < 4294967296) (hb6 : h.data_len < 65536) :
    parseHeader (pre ++ (headerBytes h ++ post)) pre.length = h := by
  have f1 : readLE32 (pre ++ (headerBytes h ++ post)) pre.length = h.total_len := by
    have e : pre ++ (headerBytes h ++ post)
        = pre ++ (le32 h.total_len ++ (le32 h.rtype ++ (le32 h.xid ++
          (le32 h.prev_record.segment ++ (le32 h.prev_record.offset ++
          (le16 h.data_len ++ ([0, 0] ++ post))))))) := by
      simp [headerBytes, List.append_assoc]
    rw [e]
    exact readLE32_le32 _ _ _ hb1
  have f2 : readLE32 (pre ++ (headerBytes h ++ post)) (pre.length + 4) = h.rtype := by
    have e : pre ++ (headerBytes h ++ post)
        = (pre ++ le32 h.total_len) ++ (le32 h.rtype ++ (le32 h.xid ++
          (le32 h.prev_record.segment ++ (le32 h.prev_record.offset ++
          (le16 h.data_len ++ ([0, 0] ++ post)))))) := by
      simp [headerBytes, List.append_assoc]
    have el : pre.length + 4 = (pre ++ le32 h.total_len).length := by
      simp [le32]
    rw [e, el]
    exact readLE32_le32 _ _ _ hb2
  have f3 : readLE32 (pre ++ (headerBytes h ++ post)) (pre.length + 8) = h.xid := by
    have e : pre ++ (headerBytes h ++ post)
        = (pre ++ le32 h.total_len ++ le32 h.rtype) ++ (le32 h.xid ++
          (le32 h.prev_record.segment ++ (le32 h.prev_record.offset ++
          (le16 h.data_len ++ ([0, 0] ++ post))))) := by
      simp [headerBytes, List.append_assoc]
    have el : pre.length + 8 = (pre ++ le32 h.total_len ++ le32 h.rtype).length := by
      simp [le32]
    rw [e, el]
    exact readLE32_le32 _ _ _ hb3
  have f4 : readLE32 (pre ++ (headerBytes h ++ post)) (pre.length + 12)
      = h.prev_record.segment := by
    have e : pre ++ (headerBytes h ++ post)
        = (pre ++ le32 h.total_len ++ le32 h.rtype ++ le32 h.xid) ++
          (le32 h.prev_record.segment ++ (le32 h.prev_record.offset ++
          (le16 h.data_len ++ ([0, 0] ++ post)))) := by
      simp [headerBytes, List.append_assoc]
    have el : pre.length + 12
        = (pre ++ le32 h.total_len ++ le32 h.rtype ++ le32 h.xid).length := by
      simp [le32]
    rw [e, el]
    exact readLE32_le32 _ _ _ hb4
  have f5 : readLE32 (pre ++ (headerBytes h ++ post)) (pre.length + 16)
      = h.prev_record.offset := by
    have e : pre ++ (headerBytes h ++ post)
        = (pre ++ le32 h.total_len ++ le32 h.rtype ++ le32 h.xid ++
            le32 h.prev_record.segment) ++
          (le32 h.prev_record.offset ++ (le16 h.data_len ++ ([0, 0] ++ post))) := by
      simp [headerBytes, List.append_assoc]
    have el : pre.length + 16
        = (pre ++ le32 h.total_len ++ le32 h.rtype ++ le32 h.xid ++
            le32 h.prev_record.segment).length := by
      simp [le32]
    rw [e, el]
    exact readLE32_le32 _ _ _ hb5
  have f6 : readLE16 (pre ++ (headerBytes h ++ post)) (pre.length + 20)
      = h.data_len := by
    have e : pre ++ (headerBytes h ++ post)
        = (pre ++ le32 h.total_len ++ le32 h.rtype ++ le32 h.xid ++
            le32 h.prev_record.segment ++ le32 h.prev_record.offset) ++
          (le16 h.data_len ++ ([0, 0] ++ post)) := by
      simp [headerBytes, List.append_assoc]
    have el : pre.length + 20
        = (pre ++ le32 h.total_len ++ le32 h.rtype ++ le32 h.xid ++
            le32 h.prev_record.segment ++ le32 h.prev_record.offset).length := by
      simp [le32]
    rw [e, el]
    exact readLE16_le16 _ _ _ hb6
  unfold parseHeader
  rw [f1, f2, f3, f4, f5, f6]

theorem drop_record_payload (pre post : List Nat) (h : RecordHeaderData)
    (p : List Nat) :
    (pre ++ (recordBytes h p ++ post)).drop (pre.length + 24)
      = p ++ (le32 (calculate_crc32 (headerBytes h ++ p)) ++ post) := by
  have e : pre ++ (recordBytes h p ++ post)
      = (pre ++ headerBytes h) ++
        (p ++ (le32 (calculate_crc32 (headerBytes h ++ p)) ++ post)) := by
    simp [recordBytes, List.append_assoc]
  have el : pre.length + 24 = (pre ++ headerBytes h).length := by
    simp [headerBytes_length]
  rw [e, el, List.drop_left]

theorem read_record_from_file_spec (ssize : Nat) (pre p post : List Nat)
    (h : RecordHeaderData) (buf : Nat)
    (hdl : h.data_len = p.length)
    (htl : h.total_len = 28 + p.length)
    (hb2 : h.rtype < 4294967296) (hb3 : h.xid < 4294967296)
    (hb4 : h.prev_record.segment < 4294967296)
    (hb5 : h.prev_record.offset < 4294967296) (hb6 : h.data_len < 65536)
    (hss : h.total_len ≤ ssize) (hs32 : ssize < 4294967296) :
    read_record_from_file ssize (pre ++ (recordBytes h p ++ post)) pre.length buf
      = some (h, if buf = 0 then [] else p.take (min p.length buf)) := by
  have hb1 : h.total_len < 4294967296 := Nat.lt_of_le_of_lt hss hs32
  have hlen : (pre ++ (recordBytes h p ++ post)).length
      = pre.length + (24 + p.length + 4) + post.length := by
    simp [recordBytes_length]
    omega
  have hparse : parseHeader (pre ++ (recordBytes h p ++ post)) pre.length = h := by
    have e : pre ++ (recordBytes h p ++ post)
        = pre ++ (headerBytes h ++
            (p ++ (le32 (calculate_crc32 (headerBytes h ++ p)) ++ post))) := by
      simp [recordBytes, List.append_assoc]
    rw [e]
    exact parseHeader_headerBytes _ _ _ hb1 hb2 hb3 hb4 hb5 hb6
  have hdropP := drop_record_payload pre post h p
  unfold read_record_from_file
  rw [if_pos (by omega)]
  rw [hparse]
  rw [if_pos (by constructor <;> omega)]
  by_cases hbuf : buf > 0
  · rw [if_pos hbuf]
    have hbtr : min h.data_len buf ≤ p.length := by
      rw [hdl]; exact Nat.le_trans (Nat.min_le_left _ _) (Nat.le_refl _)
    rw [if_pos (by omega)]
    rw [if_pos (by omega)]
    rw [hdropP]
    rw [List.take_append_of_le_length hbtr, hdl]
    have : ¬ buf = 0 := by omega
    simp [this]
  · rw [if_neg hbuf]
    rw [if_pos (by omega)]
    have : buf = 0 := by omega
    simp [this]

/-! ## Characterizing a successful EndRecord -/

theorem WalRecordType.val_lt (t : WalRecordType) : t.val < 4294967296 := by
  cases t <;> decide

theorem beginWriteEnd_eq (ctx : WalContext) (t : WalRecordType) (xid : Nat)
    (p : List Nat) (hinit : ctx.inited = true)
    (hnov : 28 + p.length < 4294967296) :
    beginWriteEnd ctx t xid p =
      wal_end_record
        { ctx with
          current_record := some
            ⟨⟨28 + p.length, t.val, xid, ctx.last_write_location, p.length⟩, p⟩
          current_record_size := 28 + p.length }
        (28 + p.length) := by
  have hτ : (24 + p.length + 4) % 4294967296 = 28 + p.length := by omega
  simp [beginWriteEnd, wal_begin_record, hinit, wal_write_payload, hτ, takeD_self]

theorem wal_end_record_success (ctx : WalContext) (pr : PendingRecord)
    (hinit : ctx.inited = true) (hcr : ctx.current_record = some pr)
    (hoff : ctx.current_segment.current_offset = ctx.current_segment.data.length)
    (hsz : ctx.current_record_size = 28 + pr.payload.length)
    (hnx : ctx.next_segment_num < 4294967296)
    (hnov : ctx.current_segment.current_offset + ctx.current_record_size
      < 4294967296) :
    ∃ pre segn,
      (wal_end_record ctx ctx.current_record_size).2 = some ⟨segn, pre.length⟩ ∧
      (wal_end_record ctx ctx.current_record_size).1.current_segment.data
        = pre ++ recordBytes pr.header pr.payload ∧
      (wal_end_record ctx ctx.current_record_size).1.current_segment.segment_num
        = segn ∧
      (wal_end_record ctx ctx.current_record_size).1.current_segment.current_offset
        = pre.length + ctx.current_record_size ∧
      (wal_end_record ctx ctx.current_record_size).1.last_write_location
        = ⟨segn, pre.length⟩ ∧
      (wal_end_record ctx ctx.current_record_size).1.inited = true ∧
      (wal_end_record ctx ctx.current_record_size).1.current_record = none ∧
      (wal_end_record ctx ctx.current_record_size).1.segment_size
        = ctx.segment_size ∧
      (wal_end_record ctx ctx.current_record_size).1.next_segment_num
        < 4294967296 ∧
      (segn = ctx.current_segment.segment_num ∨ segn = ctx.next_segment_num) ∧
      pre.length ≤ ctx.current_segment.current_offset ∧
      (wal_end_record ctx ctx.current_record_size).1.current_segment.current_offset
        = (wal_end_record ctx ctx.current_record_size).1.current_segment.data.length := by
  have hcrs : ctx.current_record_size < 4294967296 := by omega
  by_cases hc : ctx.current_segment.current_offset + ctx.current_record_size
      > ctx.segment_size
  · -- the record does not fit: rollover to a fresh segment
    refine ⟨[], ctx.next_segment_num, ?_⟩
    have hcond : (ctx.current_segment.current_offset + ctx.current_record_size) %
        4294967296 > ctx.segment_size := by
      rw [Nat.mod_eq_of_lt hnov]; exact hc
    simp only [wal_end_record, hinit, hcr, if_true, if_pos hcond,
      create_new_segment, if_pos rfl]
    simp [recordBytes_length]
    repeat' apply And.intro
    all_goals omega
  · -- the record fits in the current segment
    refine ⟨ctx.current_segment.data, ctx.current_segment.segment_num, ?_⟩
    have hcond : ¬ ((ctx.current_segment.current_offset + ctx.current_record_size) %
        4294967296 > ctx.segment_size) := by
      rw [Nat.mod_eq_of_lt hnov]; exact hc
    simp only [wal_end_record, hinit, hcr, if_true, if_neg hcond, if_pos rfl]
    simp [recordBytes_length, ← hoff]
    repeat' apply And.intro
    all_goals omega

theorem beginWriteEnd_read (ctx : WalContext) (t : WalRecordType) (xid : Nat)
    (p : List Nat) (buf : Nat)
    (hinit : ctx.inited = true)
    (hoff : ctx.current_segment.current_offset = ctx.current_segment.data.length)
    (hnx : ctx.next_segment_num < 4294967296)
    (hls : ctx.last_write_location.segment < 4294967296)
    (hlo : ctx.last_write_location.offset < 4294967296)
    (hxid : xid < 4294967296)
    (hplen : p.length ≤ 65535)
    (hfit : 28 + p.length ≤ ctx.segment_size)
    (hss : ctx.segment_size < 4294967296)
    (hnov : ctx.current_segment.current_offset + (28 + p.length) < 4294967296) :
    (beginWriteEnd ctx t xid p).2.isSome = true ∧
    wal_read_record (beginWriteEnd ctx t xid p).1
        ((beginWriteEnd ctx t xid p).2.getD ⟨0, 0⟩) buf
      = some (⟨28 + p.length, t.val, xid, ctx.last_write_location, p.length⟩,
          if buf = 0 then [] else p.take (min p.length buf)) := by
  have hpr : (28 : Nat) + p.length < 4294967296 := by omega
  rw [beginWriteEnd_eq ctx t xid p hinit hpr]
  obtain ⟨pre, segn, h1, h2, h3, h4, h5, h6, h7, h8, h9, h10, h11, h12⟩ :=
    wal_end_record_success
      { ctx with
        current_record := some
          ⟨⟨28 + p.length, t.val, xid, ctx.last_write_location, p.length⟩, p⟩
        current_record_size := 28 + p.length }
      ⟨⟨28 + p.length, t.val, xid, ctx.last_write_location, p.length⟩, p⟩
      hinit rfl hoff rfl hnx hnov
  constructor
  · rw [h1]
    rfl
  · rw [h1]
    simp only [Option.getD_some]
    unfold wal_read_record
    rw [if_pos h6]
    unfold lookup_segment_file
    rw [h3]
    rw [if_pos rfl]
    unfold fileBytes
    rw [h2, h8, List.append_assoc]
    exact read_record_from_file_spec ctx.segment_size pre p _ _ buf rfl rfl
      (WalRecordType.val_lt t) hxid hls hlo
      (by show p.length < 65536; omega) hfit hss

/-- C2: for every record written through the two-phase API with a valid
RecordType, any 32-bit xid, and any payload with length at most 65535
and total record length at most segment_size, the sequence BeginRecord,
write the payload into the returned slot, EndRecord returning location
L, then read_record(L) returns a header whose type, xid and data_len
equal the inputs and a payload byte-identical to the one written. -/
theorem wal_record_roundtrip (ctx : WalContext) (t : WalRecordType) (xid : Nat)
    (p : List Nat)
    (hinit : ctx.inited = true)
    (hoff : ctx.current_segment.current_offset = ctx.current_segment.data.length)
    (hnx : ctx.next_segment_num < 4294967296)
    (hls : ctx.last_write_location.segment < 4294967296)
    (hlo : ctx.last_write_location.offset < 4294967296)
    (hxid : xid < 4294967296)
    (hplen : p.length ≤ 65535)
    (hfit : 28 + p.length ≤ ctx.segment_size)
    (hss : ctx.segment_size < 4294967296)
    (hnov : ctx.current_segment.current_offset + (28 + p.length) < 4294967296) :
    (beginWriteEnd ctx t xid p).2.isSome = true ∧
    wal_read_record (beginWriteEnd ctx t xid p).1
        ((beginWriteEnd ctx t xid p).2.getD ⟨0, 0⟩) p.length
      = some (⟨28 + p.length, t.val, xid, ctx.last_write_location, p.length⟩, p) := by
  obtain ⟨ha, hb⟩ := beginWriteEnd_read ctx t xid p p.length hinit hoff hnx hls hlo
    hxid hplen hfit hss hnov
  refine ⟨ha, ?_⟩
  rw [hb]
  by_cases hp : p.length = 0
  · have hpnil : p = [] := List.length_eq_zero.mp hp
    subst hpnil
    simp
  · simp [hp, Nat.min_self, List.take_length]

/-- Witness for C2 at wal_init 1024 with an Insert record. -/
theorem wal_record_roundtrip_witness :
    ((wal_init 1024).inited = true ∧ (28 : Nat) + (List.length [72, 105]) ≤
        (wal_init 1024).segment_size) ∧
    ((beginWriteEnd (wal_init 1024) WalRecordType.insert 42 [72, 105]).2.isSome
        = true ∧
      wal_read_record
          (beginWriteEnd (wal_init 1024) WalRecordType.insert 42 [72, 105]).1
          ((beginWriteEnd (wal_init 1024) WalRecordType.insert 42
            [72, 105]).2.getD ⟨0, 0⟩) (List.length [72, 105])
        = some (⟨28 + (List.length [72, 105]), WalRecordType.insert.val, 42,
            (wal_init 1024).last_write_location, List.length [72, 105]⟩,
            [72, 105])) :=
  ⟨⟨by decide, by decide⟩,
    wal_record_roundtrip (wal_init 1024) WalRecordType.insert 42 [72, 105]
      (by decide) (by decide) (by decide) (by decide) (by decide) (by decide)
      (by decide) (by decide) (by decide) (by decide)⟩

/-- C10: calling wal_read_record with a non-null payload buffer whose
data_buf_size is smaller than the record's data_len still succeeds,
silently copying only the first data_buf_size bytes of the payload into
the buffer, and reports no error for the undersized buffer. -/
theorem read_record_undersized_buffer (ctx : WalContext) (t : WalRecordType)
    (xid : Nat) (p : List Nat) (buf : Nat)
    (hinit : ctx.inited = true)
    (hoff : ctx.current_segment.current_offset = ctx.current_segment.data.length)
    (hnx : ctx.next_segment_num < 4294967296)
    (hls : ctx.last_write_location.segment < 4294967296)
    (hlo : ctx.last_write_location.offset < 4294967296)
    (hxid : xid < 4294967296)
    (hplen : p.length ≤ 65535)
    (hfit : 28 + p.length ≤ ctx.segment_size)
    (hss : ctx.segment_size < 4294967296)
    (hnov : ctx.current_segment.current_offset + (28 + p.length) < 4294967296)
    (hbufpos : 0 < buf) (hbuflt : buf < p.length) :
    (beginWriteEnd ctx t xid p).2.isSome = true ∧
    wal_read_record (beginWriteEnd ctx t xid p).1
        ((beginWriteEnd ctx t xid p).2.getD ⟨0, 0⟩) buf
      = some (⟨28 + p.length, t.val, xid, ctx.last_write_location, p.length⟩,
          p.take buf) := by
  obtain ⟨ha, hb⟩ := beginWriteEnd_read ctx t xid p buf hinit hoff hnx hls hlo
    hxid hplen hfit hss hnov
  refine ⟨ha, ?_⟩
  rw [hb]
  have h1 : ¬ buf = 0 := by omega
  have h2 : min p.length buf = buf := by omega
  simp [h1, h2]

/-- Witness for C10: a 3-byte payload read back through a 1-byte buffer. -/
theorem read_record_undersized_buffer_witness :
    ((0 : Nat) < 1 ∧ (1 : Nat) < List.length [10, 20, 30]) ∧
    ((beginWriteEnd (wal_init 1024) WalRecordType.insert 7 [10, 20, 30]).2.isSome
        = true ∧
      wal_read_record
          (beginWriteEnd (wal_init 1024) WalRecordType.insert 7 [10, 20, 30]).1
          ((beginWriteEnd (wal_init 1024) WalRecordType.insert 7
            [10, 20, 30]).2.getD ⟨0, 0⟩) 1
        = some (⟨28 + (List.length [10, 20, 30]), WalRecordType.insert.val, 7,
            (wal_init 1024).last_write_location, List.length [10, 20, 30]⟩,
            List.take 1 [10, 20, 30])) :=
  ⟨⟨by decide, by decide⟩,
    read_record_undersized_buffer (wal_init 1024) WalRecordType.insert 7
      [10, 20, 30] 1 (by decide) (by decide) (by decide) (by decide) (by decide)
      (by decide) (by decide) (by decide) (by decide) (by decide) (by decide)
      (by decide)⟩

theorem beginWriteEnd_state (ctx : WalContext) (t : WalRecordType) (xid : Nat)
    (p : List Nat)
    (hinit : ctx.inited = true)
    (hoff : ctx.current_segment.current_offset = ctx.current_segment.data.length)
    (hnx : ctx.next_segment_num < 4294967296)
    (hnov : ctx.current_segment.current_offset + (28 + p.length) < 4294967296) :
    ∃ (pre : List Nat) (segn : Nat),
      (beginWriteEnd ctx t xid p).2 = some ⟨segn, pre.length⟩ ∧
      (beginWriteEnd ctx t xid p).1.current_segment.current_offset
        = (beginWriteEnd ctx t xid p).1.current_segment.data.length ∧
      (beginWriteEnd ctx t xid p).1.current_segment.current_offset
        = pre.length + (28 + p.length) ∧
      (beginWriteEnd ctx t xid p).1.last_write_location = ⟨segn, pre.length⟩ ∧
      (beginWriteEnd ctx t xid p).1.inited = true ∧
      (beginWriteEnd ctx t xid p).1.segment_size = ctx.segment_size ∧
      (beginWriteEnd ctx t xid p).1.next_segment_num < 4294967296 ∧
      (segn = ctx.current_segment.segment_num ∨ segn = ctx.next_segment_num) ∧
      pre.length ≤ ctx.current_segment.current_offset := by
  have hpr : (28 : Nat) + p.length < 4294967296 := by omega
  rw [beginWriteEnd_eq ctx t xid p hinit hpr]
  obtain ⟨pre, segn, h1, h2, h3, h4, h5, h6, h7, h8, h9, h10, h11, h12⟩ :=
    wal_end_record_success
      { ctx with
        current_record := some
          ⟨⟨28 + p.length, t.val, xid, ctx.last_write_location, p.length⟩, p⟩
        current_record_size := 28 + p.length }
      ⟨⟨28 + p.length, t.val, xid, ctx.last_write_location, p.length⟩, p⟩
      hinit rfl hoff rfl hnx hnov
  exact ⟨pre, segn, h1, h12, h4, h5, h6, h8, h9, h10, h11⟩

/-- C6: for every pair of consecutive successful EndRecord calls on the
same context producing locations L1 then L2, the record persisted at L2
has header.prev_record equal to L1, regardless of the two records' XIDs
and also when a segment rollover occurs between them; and the first
record ever written after wal_init carries the sentinel (0, 0) as
prev_record. -/
theorem prev_record_chain (ctx : WalContext) (t1 t2 : WalRecordType)
    (x1 x2 : Nat) (p1 p2 : List Nat)
    (hinit : ctx.inited = true)
    (hoff : ctx.current_segment.current_offset = ctx.current_segment.data.length)
    (hsg : ctx.current_segment.segment_num < 4294967296)
    (hnx : ctx.next_segment_num < 4294967296)
    (hx2 : x2 < 4294967296)
    (hp2 : p2.length ≤ 65535)
    (hfit2 : 28 + p2.length ≤ ctx.segment_size)
    (hss : ctx.segment_size < 4294967296)
    (hnov2 : ctx.current_segment.current_offset + (28 + p1.length)
      + (28 + p2.length) < 4294967296) :
    (beginWriteEnd ctx t1 x1 p1).2.isSome = true ∧
    (beginWriteEnd (beginWriteEnd ctx t1 x1 p1).1 t2 x2 p2).2.isSome = true ∧
    wal_read_record (beginWriteEnd (beginWriteEnd ctx t1 x1 p1).1 t2 x2 p2).1
        ((beginWriteEnd (beginWriteEnd ctx t1 x1 p1).1 t2 x2 p2).2.getD ⟨0, 0⟩) 0
      = some (⟨28 + p2.length, t2.val, x2,
          (beginWriteEnd ctx t1 x1 p1).2.getD ⟨0, 0⟩, p2.length⟩, []) ∧
    (∀ (ss0 x0 : Nat) (t0 : WalRecordType) (p0 : List Nat),
      x0 < 4294967296 → p0.length ≤ 65535 → 0 < ss0 → ss0 < 4294967296 →
      28 + p0.length ≤ ss0 →
      wal_read_record (beginWriteEnd (wal_init ss0) t0 x0 p0).1
          ((beginWriteEnd (wal_init ss0) t0 x0 p0).2.getD ⟨0, 0⟩) 0
        = some (⟨28 + p0.length, t0.val, x0, ⟨0, 0⟩, p0.length⟩, [])) := by
  obtain ⟨pre, segn, k1, k2, k3, k4, k5, k6, k7, k8, k9⟩ :=
    beginWriteEnd_state ctx t1 x1 p1 hinit hoff hnx (by omega)
  have hlsR : (beginWriteEnd ctx t1 x1 p1).1.last_write_location.segment
      < 4294967296 := by
    rw [k4]
    show segn < 4294967296
    rcases k8 with h | h <;> omega
  have hloR : (beginWriteEnd ctx t1 x1 p1).1.last_write_location.offset
      < 4294967296 := by
    rw [k4]
    show pre.length < 4294967296
    omega
  have hnovR : (beginWriteEnd ctx t1 x1 p1).1.current_segment.current_offset
      + (28 + p2.length) < 4294967296 := by
    rw [k3]
    omega
  obtain ⟨g1, g2⟩ := beginWriteEnd_read (beginWriteEnd ctx t1 x1 p1).1 t2 x2 p2 0
    k5 k2 k7 hlsR hloR hx2 hp2 (by rw [k6]; exact hfit2) (by rw [k6]; exact hss)
    hnovR
  refine ⟨by rw [k1]; rfl, g1, ?_, ?_⟩
  · rw [g2, k4, k1]
    simp
  · intro ss0 x0 t0 p0 hx0 hp0 hpos hslt hfit0
    have hssfield : (wal_init ss0).segment_size = ss0 := by
      simp [wal_init, create_new_segment, hpos]
    obtain ⟨g1i, g2i⟩ := beginWriteEnd_read (wal_init ss0) t0 x0 p0 0
      rfl rfl (show (1 + 1) % 4294967296 < 4294967296 by norm_num)
      (show (0 : Nat) < 4294967296 by norm_num)
      (show (0 : Nat) < 4294967296 by norm_num)
      hx0 hp0 (by rw [hssfield]; exact hfit0) (by rw [hssfield]; exact hslt)
      (show (0 : Nat) + (28 + p0.length) < 4294967296 by omega)
    rw [g2i]
    have hlwl : (wal_init ss0).last_write_location = ⟨0, 0⟩ := rfl
    rw [hlwl]
    simp

/-- C5: for every successful EndRecord whose record does not fit in the
current segment (current_offset + total_len > segment_size), the current
segment is marked Full and closed, a fresh Active segment numbered
current_num + 1 is allocated, and the record is written entirely within
that fresh segment starting at offset 0; the closed segment's bytes are
untouched, so no record straddles a segment boundary. -/
theorem rollover_fresh_segment (ctx : WalContext) (pr : PendingRecord)
    (hinit : ctx.inited = true) (hcr : ctx.current_record = some pr)
    (hdense : ctx.next_segment_num = ctx.current_segment.segment_num + 1)
    (hnov : ctx.current_segment.current_offset + ctx.current_record_size
      < 4294967296)
    (hroll : ctx.current_segment.current_offset + ctx.current_record_size
      > ctx.segment_size) :
    (wal_end_record ctx ctx.current_record_size).2
      = some ⟨ctx.current_segment.segment_num + 1, 0⟩ ∧
    (wal_end_record ctx ctx.current_record_size).1.current_segment.segment_num
      = ctx.current_segment.segment_num + 1 ∧
    (wal_end_record ctx ctx.current_record_size).1.current_segment.state
      = WalSegmentState.active ∧
    (wal_end_record ctx ctx.current_record_size).1.current_segment.data
      = recordBytes pr.header pr.payload ∧
    (wal_end_record ctx ctx.current_record_size).1.closed_segments
      = { ctx.current_segment with state := WalSegmentState.full }
          :: ctx.closed_segments := by
  have hcond : (ctx.current_segment.current_offset + ctx.current_record_size) %
      4294967296 > ctx.segment_size := by
    rw [Nat.mod_eq_of_lt hnov]; exact hroll
  simp only [wal_end_record, hinit, hcr, if_true, if_pos hcond,
    create_new_segment, if_pos rfl]
  simp [hdense]

/-- Witness for C5: a 40-byte segment holding one 33-byte record, with a
second 33-byte record pending. -/
def c5_ctx : WalContext :=
  (wal_begin_record
    (beginWriteEnd (wal_init 40) WalRecordType.insert 7 [1, 2, 3, 4, 5]).1
    WalRecordType.insert 7 5).getD (wal_init 40)

theorem rollover_fresh_segment_witness :
    (c5_ctx.current_segment.current_offset + c5_ctx.current_record_size
        > c5_ctx.segment_size ∧
      c5_ctx.next_segment_num = c5_ctx.current_segment.segment_num + 1) ∧
    ((wal_end_record c5_ctx c5_ctx.current_record_size).2
        = some ⟨c5_ctx.current_segment.segment_num + 1, 0⟩ ∧
      (wal_end_record c5_ctx c5_ctx.current_record_size).1.current_segment.segment_num
        = c5_ctx.current_segment.segment_num + 1 ∧
      (wal_end_record c5_ctx c5_ctx.current_record_size).1.current_segment.state
        = WalSegmentState.active ∧
      (wal_end_record c5_ctx c5_ctx.current_record_size).1.current_segment.data
        = recordBytes (⟨33, 4, 7, ⟨1, 0⟩, 5⟩ : RecordHeaderData) [0, 0, 0, 0, 0] ∧
      (wal_end_record c5_ctx c5_ctx.current_record_size).1.closed_segments
        = { c5_ctx.current_segment with state := WalSegmentState.full }
            :: c5_ctx.closed_segments) :=
  ⟨⟨by decide, by decide⟩,
    rollover_fresh_segment c5_ctx ⟨⟨33, 4, 7, ⟨1, 0⟩, 5⟩, [0, 0, 0, 0, 0]⟩
      (by decide) (by decide) (by decide) (by decide) (by decide)⟩

/-- C4 (amended): when EndRecord fails because the write to the segment
file is short, it returns an error, the segment's current_offset and the
context's last_write_location are unchanged, but the in-flight record
buffer is retained rather than abandoned, so a subsequent EndRecord can
succeed without a new BeginRecord. -/
theorem end_record_short_write (ctx : WalContext) (pr : PendingRecord)
    (written : Nat)
    (hinit : ctx.inited = true) (hcr : ctx.current_record = some pr)
    (hnoroll : ¬ ((ctx.current_segment.current_offset + ctx.current_record_size) %
      4294967296 > ctx.segment_size))
    (hshort : written ≠ ctx.current_record_size) :
    (wal_end_record ctx written).2 = none ∧
    (wal_end_record ctx written).1.current_segment.current_offset
      = ctx.current_segment.current_offset ∧
    (wal_end_record ctx written).1.current_segment.segment_num
      = ctx.current_segment.segment_num ∧
    (wal_end_record ctx written).1.last_write_location
      = ctx.last_write_location ∧
    (wal_end_record ctx written).1.current_record = some pr ∧
    (wal_end_record ctx written).1.current_record_size
      = ctx.current_record_size ∧
    (wal_end_record (wal_end_record ctx written).1
        (wal_end_record ctx written).1.current_record_size).2.isSome = true := by
  have h1 : wal_end_record ctx written =
      ({ ctx with current_segment := { ctx.current_segment with
          data := ctx.current_segment.data ++
            (recordBytes pr.header pr.payload).take written } }, none) := by
    simp only [wal_end_record, hinit, hcr, if_true, if_neg hnoroll, if_neg hshort]
  rw [h1]
  refine ⟨rfl, rfl, rfl, rfl, hcr, rfl, ?_⟩
  simp only [wal_end_record, hinit, hcr, if_true, if_neg hnoroll, if_pos rfl]
  rfl

/-- C4 counterexample input: wal_init 100 with an Insert record of
payload [1, 2, 3] in flight. -/
def c4_ctx : WalContext :=
  wal_write_payload
    ((wal_begin_record (wal_init 100) WalRecordType.insert 1 3).getD
      (wal_init 100))
    [1, 2, 3]

/-- C4 counterexample: after a short write (5 of 31 bytes) makes
EndRecord fail, a second EndRecord succeeds with no intervening
BeginRecord -- the in-flight buffer was not abandoned, so the caller
does not have to re-Begin. -/
theorem end_record_short_write_counterexample :
    (wal_end_record c4_ctx 5).2 = none ∧
    (wal_end_record (wal_end_record c4_ctx 5).1 31).2.isSome = true := by
  decide

/-- Witness for the amended C4 at the same concrete context. -/
theorem end_record_short_write_witness :
    (c4_ctx.inited = true ∧ (5 : Nat) ≠ c4_ctx.current_record_size) ∧
    ((wal_end_record c4_ctx 5).2 = none ∧
      (wal_end_record c4_ctx 5).1.current_segment.current_offset
        = c4_ctx.current_segment.current_offset ∧
      (wal_end_record c4_ctx 5).1.current_segment.segment_num
        = c4_ctx.current_segment.segment_num ∧
      (wal_end_record c4_ctx 5).1.last_write_location
        = c4_ctx.last_write_location ∧
      (wal_end_record c4_ctx 5).1.current_record
        = some ⟨⟨31, 4, 1, ⟨0, 0⟩, 3⟩, [1, 2, 3]⟩ ∧
      (wal_end_record c4_ctx 5).1.current_record_size
        = c4_ctx.current_record_size ∧
      (wal_end_record (wal_end_record c4_ctx 5).1
          (wal_end_record c4_ctx 5).1.current_record_size).2.isSome = true) :=
  ⟨⟨by decide, by decide⟩,
    end_record_short_write c4_ctx ⟨⟨31, 4, 1, ⟨0, 0⟩, 3⟩, [1, 2, 3]⟩ 5
      (by decide) (by decide) (by decide) (by decide)⟩

/-- C8 counterexample: with segment_size = 100 and data_len = 200
(header_size + data_len + 4 = 228 > 100), wal_begin_record does not
fail: it returns a payload slot. -/
theorem begin_record_no_size_check_counterexample :
    24 + 200 + 4 > (wal_init 100).segment_size ∧
    (wal_begin_record (wal_init 100) WalRecordType.insert 1 200).isSome
      = true := by
  decide

/-- C8 (amended): wal_begin_record performs no payload-size validation at
all: on an initialized context it returns a payload slot for every
data_len, also when header_size + data_len + 4 exceeds segment_size
(its only failure modes are an uninitialized context and allocation
failure). -/
theorem begin_record_no_size_check (ctx : WalContext) (t : WalRecordType)
    (xid data_len : Nat) (hinit : ctx.inited = true) :
    (wal_begin_record ctx t xid data_len).isSome = true := by
  simp [wal_begin_record, hinit]

/-- Witness for the amended C8 with an oversized record. -/
theorem begin_record_no_size_check_witness :
    (wal_init 100).inited = true ∧
    (wal_begin_record (wal_init 100) WalRecordType.schema 9 300).isSome
      = true :=
  ⟨by decide,
    begin_record_no_size_check (wal_init 100) WalRecordType.schema 9 300
      (by decide)⟩

/-- C9 counterexample: at segment number 65535 (a 32-bit value) the
filename fields the code generates (integer division by 0xFFFFFFFF and
0xFFFF) differ from the claim's stated derivation (division by 2^32 and
2^16): the code's middle field is 1 where the claim requires 0. -/
theorem segment_fields_counterexample :
    createSegmentFields 65535 ≠ specSegmentFields 65535 := by decide

/-- C9 (amended): for every segment number n the three filename fields
are n / (2^32 - 1), (n / (2^16 - 1)) mod 2^16 and n mod 2^16; the
writer, wal_read_record and the recovery scanner all use this same
derivation, and a closed segment file written for number n is found
again by wal_read_record's lookup under number n. -/
theorem segment_fields_consistent (n : Nat) (ctx : WalContext)
    (s : WalSegment) (hmem : s ∈ ctx.closed_segments)
    (hname : s.filename = createSegmentFields n) :
    createSegmentFields n = (n / 4294967295, (n / 65535) % 65536, n % 65536) ∧
    readRecordFields n = createSegmentFields n ∧
    scanRecoveryFields n = createSegmentFields n ∧
    (lookup_segment_file ctx n).isSome = true := by
  refine ⟨rfl, rfl, rfl, ?_⟩
  unfold lookup_segment_file
  by_cases hc : ctx.current_segment.segment_num = n
  · simp [hc]
  · rw [if_neg hc]
    have hex : (ctx.closed_segments.find?
        (fun x => decide (x.filename = readRecordFields n))).isSome = true :=
      List.find?_isSome.mpr ⟨s, hmem, by rw [decide_eq_true_eq, hname]; rfl⟩
    cases hfind : ctx.closed_segments.find?
        (fun x => decide (x.filename = readRecordFields n)) with
    | none => rw [hfind] at hex; simp at hex
    | some sf => rfl

/-- Witness for the amended C9: a context whose active segment is 2 and
whose directory holds the closed file of segment 1. -/
def c9_seg : WalSegment :=
  { segment_num := 1, filename := createSegmentFields 1,
    state := WalSegmentState.full, current_offset := 0, data := [] }

def c9_ctx : WalContext :=
  { wal_init 40 with
    current_segment := { (wal_init 40).current_segment with segment_num := 2 }
    closed_segments := [c9_seg] }

theorem segment_fields_consistent_witness :
    (c9_seg ∈ c9_ctx.closed_segments ∧
      c9_seg.filename = createSegmentFields 1) ∧
    (createSegmentFields 1 = (1 / 4294967295, (1 / 65535) % 65536, 1 % 65536) ∧
      readRecordFields 1 = createSegmentFields 1 ∧
      scanRecoveryFields 1 = createSegmentFields 1 ∧
      (lookup_segment_file c9_ctx 1).isSome = true) :=
  ⟨⟨by decide, by decide⟩,
    segment_fields_consistent 1 c9_ctx c9_seg (by decide) (by decide)⟩

/-- C1 failing input: one segment holding the data-bearing Insert record
of transaction 1 followed by that transaction's XactCommit record. -/
def c1_insert_header : RecordHeaderData := ⟨29, 4, 1, ⟨0, 0⟩, 1⟩

def c1_commit_header : RecordHeaderData := ⟨28, 2, 1, ⟨1, 0⟩, 0⟩

def c1_file : List Nat :=
  recordBytes c1_insert_header [65] ++ recordBytes c1_commit_header []

set_option maxRecDepth 100000 in
/-- C1: on a log where a committed transaction's data-bearing record
precedes its commit record, the forward scan completes, records the
transaction's final state as Committed, and yet dispatches no record to
any handler -- the Insert is counted skipped, because the scan decides
applicability at record-read time, when the transaction is still
InProgress.  The claim instead requires the Insert to be applied. -/
theorem recovery_skips_committed_data_record :
    (scan_records_for_recovery 16777216 default_handlers [c1_file] 1 0 []
        ScanState.start).2.2 = true ∧
    (scan_records_for_recovery 16777216 default_handlers [c1_file] 1 0 []
        ScanState.start).1
      = [⟨1, TxnState.committed, ⟨1, 0⟩, ⟨1, 0⟩⟩] ∧
    (scan_records_for_recovery 16777216 default_handlers [c1_file] 1 0 []
        ScanState.start).2.1.stats.committed_transactions = 1 ∧
    (scan_records_for_recovery 16777216 default_handlers [c1_file] 1 0 []
        ScanState.start).2.1.stats.skipped_records = 1 ∧
    (scan_records_for_recovery 16777216 default_handlers [c1_file] 1 0 []
        ScanState.start).2.1.stats.applied_records = 0 ∧
    (scan_records_for_recovery 16777216 default_handlers [c1_file] 1 0 []
        ScanState.start).2.1.dispatched = [] := by
  decide

/-- C3 failing input: a persisted Insert record whose first payload byte
is flipped from 10 to 11 in the segment file. -/
def c3_ctx : WalContext :=
  (beginWriteEnd (wal_init 1024) WalRecordType.insert 1 [10, 20, 30]).1

def c3_flipped : WalContext :=
  { c3_ctx with current_segment :=
      { c3_ctx.current_segment with
        data := c3_ctx.current_segment.data.set 24 11 } }

set_option maxRecDepth 100000 in
/-- C3: after flipping a single persisted byte (payload byte 10 becomes
11), wal_read_record still succeeds and returns the altered payload --
the stored CRC is read but never compared -- and the recovery scan
processes the record without classifying it as corruption.  The claim
instead requires the read to fail or the scan to truncate. -/
theorem read_record_accepts_flipped_byte :
    c3_ctx.current_segment.data.getD 24 0 = 10 ∧
    c3_flipped.current_segment.data.getD 24 0 = 11 ∧
    wal_read_record c3_flipped ⟨1, 0⟩ 3
      = some (⟨31, 4, 1, ⟨0, 0⟩, 3⟩, [11, 20, 30]) ∧
    (scan_records_for_recovery 1024 default_handlers
        [c3_flipped.current_segment.data] 1 0 [] ScanState.start).2.2 = true ∧
    (scan_records_for_recovery 1024 default_handlers
        [c3_flipped.current_segment.data] 1 0 []
        ScanState.start).2.1.stats.processed_records = 1 := by
  decide

/-- Witness for C6: two records (an Insert, then the XactCommit) written
from wal_init 1024. -/
theorem prev_record_chain_witness :
    ((wal_init 1024).inited = true ∧
      (wal_init 1024).current_segment.current_offset
        + (28 + List.length [1, 2]) + (28 + List.length ([] : List Nat))
        < 4294967296) ∧
    ((beginWriteEnd (wal_init 1024) WalRecordType.insert 42 [1, 2]).2.isSome
        = true ∧
      (beginWriteEnd
          (beginWriteEnd (wal_init 1024) WalRecordType.insert 42 [1, 2]).1
          WalRecordType.xactCommit 42 []).2.isSome = true ∧
      wal_read_record
          (beginWriteEnd
            (beginWriteEnd (wal_init 1024) WalRecordType.insert 42 [1, 2]).1
            WalRecordType.xactCommit 42 []).1
          ((beginWriteEnd
            (beginWriteEnd (wal_init 1024) WalRecordType.insert 42 [1, 2]).1
            WalRecordType.xactCommit 42 []).2.getD ⟨0, 0⟩) 0
        = some (⟨28 + List.length ([] : List Nat), WalRecordType.xactCommit.val,
            42,
            (beginWriteEnd (wal_init 1024) WalRecordType.insert 42
              [1, 2]).2.getD ⟨0, 0⟩,
            List.length ([] : List Nat)⟩, []) ∧
      (∀ (ss0 x0 : Nat) (t0 : WalRecordType) (p0 : List Nat),
        x0 < 4294967296 → p0.length ≤ 65535 → 0 < ss0 → ss0 < 4294967296 →
        28 + p0.length ≤ ss0 →
        wal_read_record (beginWriteEnd (wal_init ss0) t0 x0 p0).1
            ((beginWriteEnd (wal_init ss0) t0 x0 p0).2.getD ⟨0, 0⟩) 0
          = some (⟨28 + p0.length, t0.val, x0, ⟨0, 0⟩, p0.length⟩, []))) :=
  ⟨⟨by decide, by decide⟩,
    prev_record_chain (wal_init 1024) WalRecordType.insert
      WalRecordType.xactCommit 42 42 [1, 2] [] (by decide) (by decide)
      (by decide) (by decide) (by decide) (by decide) (by decide) (by decide)
      (by decide)⟩
